import Mathlib

/-!
# Verification of the libvirt connection-resilience layer

Shallow embedding of `pkg/virt-handler/virtwrap/libvirt` (connection
handling, reconnection, callback replay, error classification, watchdog,
dialer) and of the `virtwrap` hypervisor facade. External effects
(the libvirt-go client, the process-global last error, the k8s poll
utility) are modelled as explicit inputs; lock operations and callback
invocations are recorded in an event trace so that ordering properties
can be stated.
-/

namespace Virtwrap

/-- Libvirt error numbers relevant to the classifier: the seven
connection-fatal codes named in `checkConnectionLost`, plus
representative non-fatal codes. -/
inductive ErrCode where
  | ERR_INTERNAL_ERROR
  | ERR_INVALID_CONN
  | ERR_AUTH_CANCELLED
  | ERR_NO_MEMORY
  | ERR_AUTH_FAILED
  | ERR_SYSTEM_ERROR
  | ERR_RPC
  | ERR_NO_DOMAIN
  | ERR_OPERATION_TIMEOUT
  | ERR_XML_ERROR
  deriving DecidableEq, Repr

/-- A libvirt-go `Error` value: only its `Code` field is inspected by
this layer. -/
structure LvError where
  code : ErrCode
  deriving DecidableEq, Repr

/-- The switch arms of `checkConnectionLost`: the codes treated as
proof that the connection itself is lost. -/
def isConnectionFatal (c : ErrCode) : Bool :=
  match c with
  | ErrCode.ERR_INTERNAL_ERROR => true
  | ErrCode.ERR_INVALID_CONN => true
  | ErrCode.ERR_AUTH_CANCELLED => true
  | ErrCode.ERR_NO_MEMORY => true
  | ErrCode.ERR_AUTH_FAILED => true
  | ErrCode.ERR_SYSTEM_ERROR => true
  | ErrCode.ERR_RPC => true
  | _ => false

/-- Modelled from the spec: `errors.IsOk` lives in
`pkg/virt-handler/virtwrap/errors`, which is not among the provided
source files. Per the spec's classifier contract ("If no error is
present, return without effect"), the process-global last error is
modelled as `Option LvError`, `none` meaning no error is present, and
`IsOk` recognises exactly that case. -/
def IsOk (lastErr : Option LvError) : Bool :=
  lastErr.isNone

/-- The `LibvirtConnection` struct. The session reference `Connect` is
an opaque handle (0 plays the role of Go's nil); the `stop` channel is
`none` while the channel is nil (never made), `some false` when open,
`some true` once closed; `callbacks` is the replay registry of
`DomainEventLifecycleCallback` values, identified by id. The
`reconnectLock` mutex is modelled through the event trace below. -/
structure LibvirtConnection where
  Connect : Nat
  user : String
  pass : String
  uri : String
  alive : Bool
  stop : Option Bool
  callbacks : List Nat
  deriving DecidableEq, Repr

/-- Observable events of the reconnect path: mutex operations, dial
outcomes, the registry drain (recording the callbacks taken and the
registry contents immediately afterwards), and callback invocations
(`event = none` is the nil event of the reconnect notification). -/
inductive Ev where
  | lock
  | unlock
  | dialOk (c : Nat)
  | dialFail
  | drain (taken : List Nat) (remaining : List Nat)
  | invoke (cb : Nat) (event : Option Nat)
  deriving DecidableEq, Repr

/-- Projection selecting callback-invocation events from a trace. -/
def invokeEv : Ev → Option (Nat × Option Nat)
  | Ev.invoke cb e => some (cb, e)
  | _ => none

/-- Result of `reconnectIfNecessary`: the state at return, the returned
error, and the event trace of the call. -/
structure ReconnectResult where
  state : LibvirtConnection
  err : Option LvError
  trace : List Ev
  deriving Repr

/-- `reconnectIfNecessary`. The outcome of `newConnection(uri, user,
pass)` is passed in as `dial`. Faithful to the source: the lock is
taken first and its release is a `defer`, so the unlock is the last
event of the call; when `alive` is false a single dial attempt is made
(on failure `Connect` is overwritten with nil and the error returned);
on success the session is replaced, `alive` set, the registry swapped
for an empty one, and each taken callback invoked with a nil event —
still under the lock, because the deferred unlock only runs at
return. -/
def reconnectIfNecessary (dial : Except LvError Nat)
    (l : LibvirtConnection) : ReconnectResult :=
  if l.alive then
    { state := l, err := none, trace := [Ev.lock, Ev.unlock] }
  else
    match dial with
    | Except.error e =>
        { state := { l with Connect := 0 }, err := some e,
          trace := [Ev.lock, Ev.dialFail, Ev.unlock] }
    | Except.ok c =>
        let cbs := l.callbacks
        let l2 := { l with Connect := c, alive := true, callbacks := [] }
        { state := l2, err := none,
          trace := [Ev.lock, Ev.dialOk c, Ev.drain cbs l2.callbacks]
                     ++ cbs.map (fun cb => Ev.invoke cb none)
                     ++ [Ev.unlock] }

/-- `checkConnectionLost`. The process-global `libvirt.GetLastError()`
result is passed in as `lastErr`. Returns the state after the check and
whether the "Connection to libvirt lost." log record was emitted. -/
def checkConnectionLost (lastErr : Option LvError)
    (l : LibvirtConnection) : LibvirtConnection × Bool :=
  if IsOk lastErr then (l, false)
  else
    match lastErr with
    | none => (l, false)
    | some err =>
        if isConnectionFatal err.code then
          ({ l with alive := false }, true)
        else (l, false)

/-- The cross-cutting wrapper shape shared verbatim by every public
operation of `LibvirtConnection` (`ListSecrets`, `NewStream`,
`LookupSecretByUUIDString`, `LookupSecretByUsage`, `ListAllSecrets`,
`SecretDefineXML`, `LookupGuestByName`, `DefineGuestSpec`,
`ListAllGuests`): `reconnectIfNecessary`, early return of its error,
otherwise perform the underlying call (its outcome passed in as
`call`) with `checkConnectionLost` deferred to run before the return.
Returns the state at return and the value/error returned to the
caller. -/
def wrappedOp {α : Type} (dial : Except LvError Nat)
    (call : Except LvError α) (lastErr : Option LvError)
    (l : LibvirtConnection) : LibvirtConnection × Except LvError α :=
  let r := reconnectIfNecessary dial l
  match r.err with
  | some e => (r.state, Except.error e)
  | none => ((checkConnectionLost lastErr r.state).1, call)

/-- `ListSecrets`: the underlying call is `l.Connect.ListSecrets()`. -/
def ListSecrets (dial : Except LvError Nat)
    (call : Except LvError (List String)) (lastErr : Option LvError)
    (l : LibvirtConnection) :
    LibvirtConnection × Except LvError (List String) :=
  wrappedOp dial call lastErr l

/-- `LookupSecretByUUIDString`: underlying call
`l.Connect.LookupSecretByUUIDString(uuid)`; secrets identified by id. -/
def LookupSecretByUUIDString (dial : Except LvError Nat)
    (call : Except LvError Nat) (lastErr : Option LvError)
    (l : LibvirtConnection) : LibvirtConnection × Except LvError Nat :=
  wrappedOp dial call lastErr l

/-- `DefineGuestSpec`: underlying call `l.Connect.DomainDefineXML(xml)`;
domains identified by id. -/
def DefineGuestSpec (dial : Except LvError Nat)
    (call : Except LvError Nat) (lastErr : Option LvError)
    (l : LibvirtConnection) : LibvirtConnection × Except LvError Nat :=
  wrappedOp dial call lastErr l

/-- `ListAllGuests`: underlying call `l.Connect.ListAllDomains(flags)`;
the per-element interface boxing is the identity in this model. -/
def ListAllGuests (dial : Except LvError Nat)
    (call : Except LvError (List Nat)) (lastErr : Option LvError)
    (l : LibvirtConnection) :
    LibvirtConnection × Except LvError (List Nat) :=
  wrappedOp dial call lastErr l

/-- `NewStream`: underlying call `l.Connect.NewStream(flags)`; the
`VirStream` boxing is the identity in this model. -/
def NewStream (dial : Except LvError Nat) (call : Except LvError Nat)
    (lastErr : Option LvError) (l : LibvirtConnection) :
    LibvirtConnection × Except LvError Nat :=
  wrappedOp dial call lastErr l

/-- The argument of `RegisterGuestEventLifecycle` is an `interface{}`:
either a value of the concrete `libvirt_go.DomainEventLifecycleCallback`
function type, or a value of any other dynamic type. -/
inductive CallbackArg where
  | lifecycle (cb : Nat)
  | other
  deriving DecidableEq, Repr

/-- What a call to `RegisterGuestEventLifecycle` does at the language
level: return normally with an optional error, or panic on the failed
unchecked type assertion. -/
inductive RegisterOutcome where
  | ret (err : Option LvError)
  | panicTypeAssertion
  deriving DecidableEq, Repr

/-- `RegisterGuestEventLifecycle`. After a successful
`reconnectIfNecessary`, the opaque argument is cast by an unchecked
type assertion (a wrong dynamic type panics; Go still runs the deferred
`checkConnectionLost` while unwinding); a well-typed callback is
appended to the replay registry first, and only then is the underlying
`DomainEventLifecycleRegister` attempted (its outcome passed in as
`regResult`), whose error is returned as-is. -/
def RegisterGuestEventLifecycle (dial : Except LvError Nat)
    (regResult : Except LvError Nat) (lastErr : Option LvError)
    (callback : CallbackArg) (l : LibvirtConnection) :
    LibvirtConnection × RegisterOutcome :=
  let r := reconnectIfNecessary dial l
  match r.err with
  | some e => (r.state, RegisterOutcome.ret (some e))
  | none =>
      match callback with
      | CallbackArg.other =>
          ((checkConnectionLost lastErr r.state).1,
            RegisterOutcome.panicTypeAssertion)
      | CallbackArg.lifecycle lvcb =>
          let l2 := { r.state with callbacks := r.state.callbacks ++ [lvcb] }
          match regResult with
          | Except.error e =>
              ((checkConnectionLost lastErr l2).1,
                RegisterOutcome.ret (some e))
          | Except.ok _ =>
              ((checkConnectionLost lastErr l2).1, RegisterOutcome.ret none)

/-- Result of one watchdog tick of `MonitorConnection`: the state at
the end of the tick, whether the watchdog's own "Connection to libvirt
lost" log record was emitted, whether `checkConnectionLost` was
invoked, and whether that classifier emitted its log record. -/
structure TickResult where
  state : LibvirtConnection
  loggedDirect : Bool
  classifierInvoked : Bool
  classifierLogged : Bool
  deriving DecidableEq, Repr

/-- One `<-time.After(checkInterval)` tick of the `MonitorConnection`
watchdog loop: call `reconnectIfNecessary` (its return value is ignored
by the source), then query `l.Connect.IsAlive()` (outcome passed in as
`isAliveRes`/`isAliveErr`). If the session reports alive, the tick does
nothing further; if not alive with no error, log and set `alive` to
false directly under the lock; otherwise defer to
`checkConnectionLost` on the global last error. -/
def monitorTick (dial : Except LvError Nat) (isAliveRes : Bool)
    (isAliveErr : Option LvError) (lastErr : Option LvError)
    (l : LibvirtConnection) : TickResult :=
  let r := reconnectIfNecessary dial l
  if isAliveRes then
    { state := r.state, loggedDirect := false,
      classifierInvoked := false, classifierLogged := false }
  else
    match isAliveErr with
    | none =>
        { state := { r.state with alive := false }, loggedDirect := true,
          classifierInvoked := false, classifierLogged := false }
    | some _ =>
        let c := checkConnectionLost lastErr r.state
        { state := c.1, loggedDirect := false,
          classifierInvoked := true, classifierLogged := c.2 }

/-- How a call to the `Close` wrapper can end at the language level:
the Go runtime panic from closing a nil channel, the panic from closing
an already-closed channel, or a normal return carrying a session close
result. -/
inductive CloseOutcome where
  | panicCloseOfNilChannel
  | panicCloseOfClosedChannel
  | returned (result : Int) (err : Option LvError)
  deriving DecidableEq, Repr

/-- Go's `close` on a channel in the state encoding of
`LibvirtConnection.stop`: closing a nil channel panics, closing a
closed channel panics, otherwise the channel becomes closed. -/
def closeChannel : Option Bool → Except CloseOutcome (Option Bool)
  | none => Except.error CloseOutcome.panicCloseOfNilChannel
  | some true => Except.error CloseOutcome.panicCloseOfClosedChannel
  | some false => Except.ok (some true)

/-- The body of `LibvirtConnection.Close`, run with a fuel bound on the
recursion depth: `close(l.stop)` followed by `return l.Close()` — the
method calls itself, not the underlying session's close. `none` means
the fuel ran out with no outcome (the recursion never returned). -/
def CloseRun : Nat → Option Bool → Option CloseOutcome
  | 0, _ => none
  | fuel + 1, st =>
      match closeChannel st with
      | Except.error p => some p
      | Except.ok st2 => CloseRun fuel st2

/-- `ConnectionTimeout = 15 * time.Second`, in seconds. -/
def ConnectionTimeout : Nat := 15

/-- `ConnectionInterval = 10 * time.Second`, in seconds. -/
def ConnectionInterval : Nat := 10

/-- The error `utilwait.PollImmediate` reports on exhaustion
(`wait.ErrWaitTimeout`, "timed out waiting for the condition"). -/
inductive WaitErr where
  | errWaitTimeout
  deriving DecidableEq, Repr

/-- Modelled from the spec: `utilwait.PollImmediate` is the external
`k8s.io/apimachinery/pkg/util/wait` helper, not part of the provided
sources; per the Dialer contract it runs the condition immediately and
then once per interval tick while the elapsed time is below the total
timeout. This is the number of condition attempts that fit that
budget: attempt k runs at time k·interval, so the attempts are the
k with k·interval < timeout, together with the immediate attempt 0. -/
def pollImmediateAttemptCount (interval timeout : Nat) : Nat :=
  (timeout - 1) / interval + 1

/-- Modelled from the spec: `utilwait.PollImmediate(interval, timeout,
condition)` — succeed with the index of the first attempt whose
condition reports done, or return the generic wait-timeout error when
every attempt in the budget declines. The condition here never returns
an error, matching the closure in `NewConnection`. -/
def PollImmediate (interval timeout : Nat) (condition : Nat → Bool) :
    Except WaitErr Nat :=
  match (List.range (pollImmediateAttemptCount interval timeout)).find?
      condition with
  | some k => Except.ok k
  | none => Except.error WaitErr.errWaitTimeout

/-- Whether a dial attempt succeeded (the boolean the `NewConnection`
poll closure reports: `true` on success, `false, nil` on failure —
discarding the attempt's error). -/
def attemptOk (r : Except LvError Nat) : Bool :=
  match r with
  | Except.ok _ => true
  | Except.error _ => false

/-- The error `NewConnection` returns when the poll is exhausted:
`fmt.Errorf("cannot connect to libvirt daemon: %v", err)` wrapping what
`PollImmediate` returned. -/
inductive NewConnErr where
  | cannotConnect (inner : WaitErr)
  deriving DecidableEq, Repr

/-- `NewConnection`: dial with retry through `PollImmediate` over the
fixed `ConnectionInterval`/`ConnectionTimeout` budget; the k-th
underlying `newConnection` attempt's outcome is `attempt k`. On
success, the handle starts with `alive = true`, an empty callback
registry, and — faithfully to the source's struct literal, which omits
the field — a nil `stop` channel. -/
def NewConnection (attempt : Nat → Except LvError Nat)
    (uri user pass : String) : Except NewConnErr LibvirtConnection :=
  match PollImmediate ConnectionInterval ConnectionTimeout
      (fun k => attemptOk (attempt k)) with
  | Except.error e => Except.error (NewConnErr.cannotConnect e)
  | Except.ok k =>
      Except.ok
        { Connect := (attempt k).toOption.getD 0, user := user,
          pass := pass, uri := uri, alive := true, stop := none,
          callbacks := [] }

/-- The number of underlying dial attempts `NewConnection` performs:
one more than the index of the first success, or the whole budget when
exhausted. -/
def NewConnectionAttempts (attempt : Nat → Except LvError Nat) : Nat :=
  match PollImmediate ConnectionInterval ConnectionTimeout
      (fun k => attemptOk (attempt k)) with
  | Except.ok k => k + 1
  | Except.error _ =>
      pollImmediateAttemptCount ConnectionInterval ConnectionTimeout

/-! ## Sample states for the concrete witnesses -/

/-- A connection handle that is alive. -/
def sampleAlive : LibvirtConnection :=
  { Connect := 1, user := "virt", pass := "pw", uri := "qemu:///system",
    alive := true, stop := some false, callbacks := [4] }

/-- A connection handle after a detected disconnect, with two registered
callbacks. -/
def sampleDead : LibvirtConnection :=
  { Connect := 0, user := "virt", pass := "pw", uri := "qemu:///system",
    alive := false, stop := some false, callbacks := [7, 9] }

/-! ## Helper lemmas -/

/-- Invocation events projected out of a pure invocation block. -/
theorem invokeEv_filterMap_map (cbs : List Nat) :
    List.filterMap (invokeEv ∘ fun cb => Ev.invoke cb none) cbs
      = cbs.map (fun cb => (cb, (none : Option Nat))) := by
  induction cbs with
  | nil => rfl
  | cons a t ih =>
      simp [List.filterMap_cons, invokeEv, Function.comp, ih]

/-- The error classifier never touches the callback registry. -/
theorem checkConnectionLost_callbacks (lastErr : Option LvError)
    (l : LibvirtConnection) :
    (checkConnectionLost lastErr l).1.callbacks = l.callbacks := by
  cases lastErr with
  | none => rfl
  | some e => cases hf : isConnectionFatal e.code <;>
      simp [checkConnectionLost, IsOk, hf]

/-- On an alive handle, `reconnectIfNecessary` is a pure no-op under the
lock. -/
theorem reconnectIfNecessary_alive (dial : Except LvError Nat)
    (l : LibvirtConnection) (h : l.alive = true) :
    reconnectIfNecessary dial l
      = { state := l, err := none, trace := [Ev.lock, Ev.unlock] } := by
  simp [reconnectIfNecessary, h]

/-- On a dead handle with a successful dial, `reconnectIfNecessary`
swaps the session, drains the registry and invokes the taken callbacks
before the deferred unlock. -/
theorem reconnectIfNecessary_dead_ok (c : Nat) (l : LibvirtConnection)
    (h : l.alive = false) :
    reconnectIfNecessary (Except.ok c) l
      = { state := { l with Connect := c, alive := true, callbacks := [] },
          err := none,
          trace := Ev.lock :: Ev.dialOk c :: Ev.drain l.callbacks [] ::
            (l.callbacks.map (fun cb => Ev.invoke cb none) ++ [Ev.unlock]) } := by
  simp [reconnectIfNecessary, h]

/-! ## The claims -/

/-- C1: `checkConnectionLost` sets the handle's `alive` flag to false if
and only if the last recorded error is present and its code is one of
the seven connection-fatal codes; for every other code, and when no
error is present, the state is left unchanged. -/
theorem checkConnectionLost_fatal_spec (lastErr : Option LvError)
    (l : LibvirtConnection) :
    ((checkConnectionLost lastErr l).1.alive = false ↔
      (∃ e, lastErr = some e ∧ isConnectionFatal e.code = true)
        ∨ l.alive = false)
    ∧ (∀ e, lastErr = some e → isConnectionFatal e.code = false →
        (checkConnectionLost lastErr l).1 = l)
    ∧ (lastErr = none → (checkConnectionLost lastErr l).1 = l) := by
  cases lastErr with
  | none => simp [checkConnectionLost, IsOk]
  | some e =>
      cases hf : isConnectionFatal e.code with
      | true => simp [checkConnectionLost, IsOk, hf]
      | false => simp [checkConnectionLost, IsOk, hf]

/-- C2: a successful reconnect on a dead handle invokes every callback
registered before the reconnect exactly once with a nil event (the
invocation events are exactly the registered callbacks, in order, each
with the nil payload), leaves the registry empty, and the drain — whose
event records the emptied registry — precedes every invocation in the
trace. -/
theorem reconnect_drains_registry (c : Nat) (l : LibvirtConnection)
    (h : l.alive = false) :
    ((reconnectIfNecessary (Except.ok c) l).trace.filterMap invokeEv
        = l.callbacks.map (fun cb => (cb, (none : Option Nat))))
    ∧ (reconnectIfNecessary (Except.ok c) l).state.callbacks = []
    ∧ ∃ i, (reconnectIfNecessary (Except.ok c) l).trace.get? i
          = some (Ev.drain l.callbacks [])
        ∧ ∀ j cb e, (reconnectIfNecessary (Except.ok c) l).trace.get? j
            = some (Ev.invoke cb e) → i < j := by
  rw [reconnectIfNecessary_dead_ok c l h]
  refine ⟨?_, rfl, 2, rfl, ?_⟩
  · simp [List.filterMap_cons, List.filterMap_append, invokeEv,
      invokeEv_filterMap_map]
  · intro j cb e hj
    match j with
    | 0 => simp at hj
    | 1 => simp at hj
    | 2 => simp at hj
    | n + 3 => omega

/-- C2 witness: the drain-and-replay property at a concrete dead handle
with two registered callbacks. -/
theorem reconnect_drains_registry_witness :
    sampleDead.alive = false
    ∧ (((reconnectIfNecessary (Except.ok 5) sampleDead).trace.filterMap
          invokeEv
        = sampleDead.callbacks.map (fun cb => (cb, (none : Option Nat))))
      ∧ (reconnectIfNecessary (Except.ok 5) sampleDead).state.callbacks = []
      ∧ ∃ i, (reconnectIfNecessary (Except.ok 5) sampleDead).trace.get? i
            = some (Ev.drain sampleDead.callbacks [])
          ∧ ∀ j cb e,
              (reconnectIfNecessary (Except.ok 5) sampleDead).trace.get? j
                = some (Ev.invoke cb e) → i < j) :=
  ⟨rfl, reconnect_drains_registry 5 sampleDead rfl⟩

/-- A dead handle with one registered callback, for the lock-ordering
counterexample. -/
def lockedConn : LibvirtConnection :=
  { Connect := 0, user := "virt", pass := "pw", uri := "qemu:///system",
    alive := false, stop := some false, callbacks := [7] }

/-- C3 counterexample: it is not true that the lock is released before
the drained callbacks are invoked. At a concrete successful reconnect
with one registered callback, the invocation event has no unlock event
before it in the trace: the unlock is deferred to the return, after the
callback loop. -/
theorem reconnect_unlock_before_invoke_false :
    ¬ (∀ j cb e,
        (reconnectIfNecessary (Except.ok 3) lockedConn).trace.get? j
          = some (Ev.invoke cb e) →
        ∃ i, i < j ∧
          (reconnectIfNecessary (Except.ok 3) lockedConn).trace.get? i
            = some Ev.unlock) := by
  intro hclaim
  obtain ⟨i, hi, hu⟩ := hclaim 3 7 none (by rfl)
  interval_cases i <;> simp [reconnectIfNecessary, lockedConn] at hu

/-- C3 amended: during a successful reconnect the lock is held across
the callback invocations — the single unlock is the deferred one at
return, it is the final event of the trace, and every invocation
precedes it; a callback that synchronously re-registered itself would
therefore deadlock on the non-reentrant lock. -/
theorem reconnect_invokes_under_lock (c : Nat) (l : LibvirtConnection)
    (h : l.alive = false) :
    (reconnectIfNecessary (Except.ok c) l).trace.getLast? = some Ev.unlock
    ∧ (∀ e, e ∈ (reconnectIfNecessary (Except.ok c) l).trace.dropLast →
        e ≠ Ev.unlock)
    ∧ ∀ cb ev,
        Ev.invoke cb ev ∈ (reconnectIfNecessary (Except.ok c) l).trace →
        Ev.invoke cb ev ∈
          (reconnectIfNecessary (Except.ok c) l).trace.dropLast := by
  rw [reconnectIfNecessary_dead_ok c l h]
  have hsh : (Ev.lock :: Ev.dialOk c :: Ev.drain l.callbacks [] ::
        (l.callbacks.map (fun cb => Ev.invoke cb none) ++ [Ev.unlock]))
      = (Ev.lock :: Ev.dialOk c :: Ev.drain l.callbacks [] ::
          l.callbacks.map (fun cb => Ev.invoke cb none)) ++ [Ev.unlock] := by
    simp
  refine ⟨?_, ?_, ?_⟩
  · rw [hsh, List.getLast?_concat]
  · rw [hsh, List.dropLast_concat]
    intro e he
    simp only [List.mem_cons, List.mem_map] at he
    rcases he with rfl | rfl | rfl | ⟨cb, _, rfl⟩ <;> simp
  · intro cb ev hmem
    rw [hsh, List.dropLast_concat]
    rw [hsh] at hmem
    rcases (List.mem_append.mp hmem) with hpre | hlast
    · exact hpre
    · simp at hlast

/-- C3 amended witness: the under-lock invocation shape at a concrete
dead handle. -/
theorem reconnect_invokes_under_lock_witness :
    sampleDead.alive = false
    ∧ ((reconnectIfNecessary (Except.ok 5) sampleDead).trace.getLast?
        = some Ev.unlock
      ∧ (∀ e, e ∈ (reconnectIfNecessary (Except.ok 5) sampleDead).trace.dropLast →
          e ≠ Ev.unlock)
      ∧ ∀ cb ev,
          Ev.invoke cb ev ∈ (reconnectIfNecessary (Except.ok 5) sampleDead).trace →
          Ev.invoke cb ev ∈
            (reconnectIfNecessary (Except.ok 5) sampleDead).trace.dropLast) :=
  ⟨rfl, reconnect_invokes_under_lock 5 sampleDead rfl⟩

/-- C4: when `reconnectIfNecessary` runs on a dead handle and the single
dial attempt fails, the error is propagated, `alive` stays false, the
callback registry is untouched, and no callback is invoked. -/
theorem reconnect_failure_propagates (e : LvError) (l : LibvirtConnection)
    (h : l.alive = false) :
    (reconnectIfNecessary (Except.error e) l).err = some e
    ∧ (reconnectIfNecessary (Except.error e) l).state.alive = false
    ∧ (reconnectIfNecessary (Except.error e) l).state.callbacks = l.callbacks
    ∧ ∀ cb ev,
        Ev.invoke cb ev ∉ (reconnectIfNecessary (Except.error e) l).trace := by
  simp [reconnectIfNecessary, h]

/-- C4 witness: a failed reconnect at a concrete dead handle propagates
the dial error and leaves the registry alone. -/
theorem reconnect_failure_propagates_witness :
    sampleDead.alive = false
    ∧ ((reconnectIfNecessary
          (Except.error { code := ErrCode.ERR_SYSTEM_ERROR }) sampleDead).err
        = some { code := ErrCode.ERR_SYSTEM_ERROR }
      ∧ (reconnectIfNecessary
          (Except.error { code := ErrCode.ERR_SYSTEM_ERROR }) sampleDead).state.alive
        = false
      ∧ (reconnectIfNecessary
          (Except.error { code := ErrCode.ERR_SYSTEM_ERROR }) sampleDead).state.callbacks
        = sampleDead.callbacks
      ∧ ∀ cb ev, Ev.invoke cb ev ∉
          (reconnectIfNecessary
            (Except.error { code := ErrCode.ERR_SYSTEM_ERROR }) sampleDead).trace) :=
  ⟨rfl, reconnect_failure_propagates { code := ErrCode.ERR_SYSTEM_ERROR }
    sampleDead rfl⟩

/-- C5: on an alive handle, every wrapped public operation returns to
the caller exactly what the underlying client call produced; the
post-call `checkConnectionLost` step can change only the `alive` flag —
session reference, credentials, URI, stop channel and callback registry
are untouched, and the returned value is independent of the recorded
last error. All public operations (`ListSecrets`, `NewStream`, the
secret lookups/definitions, the guest lookups/definitions and listings)
are instances of `wrappedOp`. -/
theorem wrappedOp_returns_underlying {α : Type} (dial : Except LvError Nat)
    (call : Except LvError α) (lastErr : Option LvError)
    (l : LibvirtConnection) (h : l.alive = true) :
    (wrappedOp dial call lastErr l).2 = call
    ∧ (wrappedOp dial call lastErr l).1.Connect = l.Connect
    ∧ (wrappedOp dial call lastErr l).1.user = l.user
    ∧ (wrappedOp dial call lastErr l).1.pass = l.pass
    ∧ (wrappedOp dial call lastErr l).1.uri = l.uri
    ∧ (wrappedOp dial call lastErr l).1.stop = l.stop
    ∧ (wrappedOp dial call lastErr l).1.callbacks = l.callbacks := by
  rw [wrappedOp, reconnectIfNecessary_alive dial l h]
  cases lastErr with
  | none => simp [checkConnectionLost, IsOk]
  | some e => cases hf : isConnectionFatal e.code <;>
      simp [checkConnectionLost, IsOk, hf]

/-- C5 witness: the spec's scenario — alive handle, successful
underlying `ListSecrets` call, last-error code rpc-error: the success
result is still returned unchanged, only `alive` flips to false. -/
theorem wrappedOp_returns_underlying_witness :
    sampleAlive.alive = true
    ∧ ((ListSecrets (Except.ok 1) (Except.ok ["sec"])
          (some { code := ErrCode.ERR_RPC }) sampleAlive).2
        = Except.ok ["sec"]
      ∧ (ListSecrets (Except.ok 1) (Except.ok ["sec"])
          (some { code := ErrCode.ERR_RPC }) sampleAlive).1.Connect
        = sampleAlive.Connect
      ∧ (ListSecrets (Except.ok 1) (Except.ok ["sec"])
          (some { code := ErrCode.ERR_RPC }) sampleAlive).1.user
        = sampleAlive.user
      ∧ (ListSecrets (Except.ok 1) (Except.ok ["sec"])
          (some { code := ErrCode.ERR_RPC }) sampleAlive).1.pass
        = sampleAlive.pass
      ∧ (ListSecrets (Except.ok 1) (Except.ok ["sec"])
          (some { code := ErrCode.ERR_RPC }) sampleAlive).1.uri
        = sampleAlive.uri
      ∧ (ListSecrets (Except.ok 1) (Except.ok ["sec"])
          (some { code := ErrCode.ERR_RPC }) sampleAlive).1.stop
        = sampleAlive.stop
      ∧ (ListSecrets (Except.ok 1) (Except.ok ["sec"])
          (some { code := ErrCode.ERR_RPC }) sampleAlive).1.callbacks
        = sampleAlive.callbacks)
    ∧ (ListSecrets (Except.ok 1) (Except.ok ["sec"])
        (some { code := ErrCode.ERR_RPC }) sampleAlive).1.alive = false :=
  ⟨rfl,
    wrappedOp_returns_underlying (Except.ok 1) (Except.ok ["sec"])
      (some { code := ErrCode.ERR_RPC }) sampleAlive rfl,
    rfl⟩

/-- Every attempt fails with a system error. -/
def attemptsFailSystem : Nat → Except LvError Nat :=
  fun _ => Except.error { code := ErrCode.ERR_SYSTEM_ERROR }

/-- Every attempt fails with an authentication failure. -/
def attemptsFailAuth : Nat → Except LvError Nat :=
  fun _ => Except.error { code := ErrCode.ERR_AUTH_FAILED }

/-- C6 counterexample: on timeout exhaustion the dialer's error does not
wrap the last underlying attempt's failure. Two all-failing attempt
sequences whose failures differ produce the identical connectivity
error — the generic wrapped wait-timeout — because the retry condition
discards the attempt's error (`return false, nil`). -/
theorem NewConnection_timeout_drops_last_error :
    NewConnection attemptsFailSystem "qemu:///system" "virt" "pw"
      = Except.error (NewConnErr.cannotConnect WaitErr.errWaitTimeout)
    ∧ NewConnection attemptsFailAuth "qemu:///system" "virt" "pw"
      = Except.error (NewConnErr.cannotConnect WaitErr.errWaitTimeout)
    ∧ attemptsFailSystem 1 ≠ attemptsFailAuth 1 := by
  refine ⟨rfl, rfl, ?_⟩
  simp [attemptsFailSystem, attemptsFailAuth]

/-- C6 amended: the dialer retries at the fixed 10s interval within the
15s budget — N failing attempts followed by a success with
N·interval < timeout succeed after N+1 attempts, the handle starting
alive with an empty registry — and on exhaustion of the budget it fails
with a connectivity error wrapping the generic poll-timeout error (the
last underlying attempt's failure having been discarded by the retry
condition). -/
theorem NewConnection_retry_budget (attempt : Nat → Except LvError Nat)
    (uri user pass : String) :
    (∀ N, (∀ k, k < N → attemptOk (attempt k) = false) →
        attemptOk (attempt N) = true →
        N * ConnectionInterval < ConnectionTimeout →
        (∃ l, NewConnection attempt uri user pass = Except.ok l
            ∧ l.alive = true ∧ l.callbacks = [])
        ∧ NewConnectionAttempts attempt = N + 1)
    ∧ ((∀ k,
          k < pollImmediateAttemptCount ConnectionInterval ConnectionTimeout →
          attemptOk (attempt k) = false) →
        NewConnection attempt uri user pass
          = Except.error (NewConnErr.cannotConnect WaitErr.errWaitTimeout)) := by
  have hrange :
      List.range (pollImmediateAttemptCount ConnectionInterval ConnectionTimeout)
        = [0, 1] := by rfl
  constructor
  · intro N hfail hok hbudget
    have hN : N < 2 := by
      simp [ConnectionInterval, ConnectionTimeout] at hbudget
      omega
    have hfind :
        (List.range (pollImmediateAttemptCount ConnectionInterval
            ConnectionTimeout)).find? (fun k => attemptOk (attempt k))
          = some N := by
      rw [hrange]
      interval_cases N
      · exact List.find?_cons_of_pos _ hok
      · rw [List.find?_cons_of_neg _ (by simp [hfail 0 (by omega)])]
        exact List.find?_cons_of_pos _ hok
    constructor
    · have hnc : NewConnection attempt uri user pass = Except.ok
          { Connect := (attempt N).toOption.getD 0, user := user,
            pass := pass, uri := uri, alive := true, stop := none,
            callbacks := [] } := by
        simp [NewConnection, PollImmediate, hfind]
      exact ⟨_, hnc, rfl, rfl⟩
    · simp [NewConnectionAttempts, PollImmediate, hfind]
  · intro hall
    have hfind :
        (List.range (pollImmediateAttemptCount ConnectionInterval
            ConnectionTimeout)).find? (fun k => attemptOk (attempt k))
          = none := by
      rw [hrange]
      rw [List.find?_cons_of_neg _ (by simp [hall 0 (by decide)])]
      rw [List.find?_cons_of_neg _ (by simp [hall 1 (by decide)])]
      rfl
    simp [NewConnection, PollImmediate, hfind]

/-- `Close` never returns: whatever the fuel bound, the recursion
yields a panic or runs out of fuel, never a `returned` outcome. -/
theorem CloseRun_no_return (fuel : Nat) :
    ∀ st n e, ¬ CloseRun fuel st = some (CloseOutcome.returned n e) := by
  induction fuel with
  | zero => intro st n e hr; simp [CloseRun] at hr
  | succ m ih =>
      intro st n e hr
      match st with
      | none => simp [CloseRun, closeChannel] at hr
      | some true => simp [CloseRun, closeChannel] at hr
      | some false =>
          exact ih (some true) n e
            (by simpa [CloseRun, closeChannel] using hr)

/-- C7 (code bug): the `Close` wrapper never stops cleanly. On every
handle `NewConnection` produces, the `stop` channel was never
initialized, so `close(l.stop)` panics at once; even on a handle with
an open initialized channel, `Close` recurses into itself and panics
closing the already-closed channel; and for no fuel bound and no
channel state does the recursion ever return a session close result —
the underlying session's own close is never reached. -/
theorem Close_never_returns (fuel : Nat) :
    CloseRun (fuel + 1) none = some CloseOutcome.panicCloseOfNilChannel
    ∧ CloseRun (fuel + 2) (some false)
        = some CloseOutcome.panicCloseOfClosedChannel
    ∧ (∀ st n e, ¬ CloseRun fuel st = some (CloseOutcome.returned n e))
    ∧ ∀ attempt uri user pass l,
        NewConnection attempt uri user pass = Except.ok l →
        CloseRun (fuel + 1) l.stop
          = some CloseOutcome.panicCloseOfNilChannel := by
  refine ⟨rfl, rfl, CloseRun_no_return fuel, ?_⟩
  intro attempt uri user pass l hconn
  have hstop : l.stop = none := by
    rw [NewConnection] at hconn
    cases hpoll : PollImmediate ConnectionInterval ConnectionTimeout
        (fun k => attemptOk (attempt k)) with
    | error e => rw [hpoll] at hconn; simp at hconn
    | ok k =>
        rw [hpoll] at hconn
        simp at hconn
        rw [← hconn]
  rw [hstop]
  rfl

/-- C8: on a watchdog tick, after the ensure-connected step: a
not-alive report with no recorded error sets `alive` to false directly
with the watchdog's own log record and no classifier invocation; a
not-alive report with an error defers entirely to
`checkConnectionLost`; and an alive report changes nothing beyond the
ensure-connected step — no log, no classifier. -/
theorem monitorTick_branches (dial : Except LvError Nat)
    (isAliveErr lastErr : Option LvError) (l : LibvirtConnection) :
    ((monitorTick dial false none lastErr l).state
        = { (reconnectIfNecessary dial l).state with alive := false }
      ∧ (monitorTick dial false none lastErr l).loggedDirect = true
      ∧ (monitorTick dial false none lastErr l).classifierInvoked = false)
    ∧ (∀ e, isAliveErr = some e →
        (monitorTick dial false isAliveErr lastErr l).classifierInvoked = true
        ∧ (monitorTick dial false isAliveErr lastErr l).state
            = (checkConnectionLost lastErr
                (reconnectIfNecessary dial l).state).1
        ∧ (monitorTick dial false isAliveErr lastErr l).loggedDirect = false)
    ∧ ((monitorTick dial true isAliveErr lastErr l).state
          = (reconnectIfNecessary dial l).state
      ∧ (monitorTick dial true isAliveErr lastErr l).loggedDirect = false
      ∧ (monitorTick dial true isAliveErr lastErr l).classifierInvoked
          = false) := by
  refine ⟨⟨rfl, rfl, rfl⟩, ?_, rfl, rfl, rfl⟩
  intro e he
  subst he
  exact ⟨rfl, rfl, rfl⟩

/-- C9: on an alive connection, a callback argument that is not a value
of the concrete `DomainEventLifecycleCallback` function type makes
`RegisterGuestEventLifecycle` panic on its unchecked type assertion; it
is never rejected through the function's error return. -/
theorem register_mistyped_panics (dial regResult : Except LvError Nat)
    (lastErr : Option LvError) (l : LibvirtConnection)
    (h : l.alive = true) :
    (RegisterGuestEventLifecycle dial regResult lastErr
        CallbackArg.other l).2 = RegisterOutcome.panicTypeAssertion
    ∧ ∀ e, ¬ (RegisterGuestEventLifecycle dial regResult lastErr
        CallbackArg.other l).2 = RegisterOutcome.ret e := by
  rw [RegisterGuestEventLifecycle, reconnectIfNecessary_alive dial l h]
  exact ⟨rfl, fun e hr => by simp at hr⟩

/-- C9 witness: the panic at a concrete alive handle. -/
theorem register_mistyped_panics_witness :
    sampleAlive.alive = true
    ∧ ((RegisterGuestEventLifecycle (Except.ok 1) (Except.ok 0) none
          CallbackArg.other sampleAlive).2
        = RegisterOutcome.panicTypeAssertion
      ∧ ∀ e, ¬ (RegisterGuestEventLifecycle (Except.ok 1) (Except.ok 0) none
          CallbackArg.other sampleAlive).2 = RegisterOutcome.ret e) :=
  ⟨rfl, register_mistyped_panics (Except.ok 1) (Except.ok 0) none
    sampleAlive rfl⟩

/-- C10: on an alive connection, a well-typed callback is appended to
the replay registry before the underlying registration is attempted:
when the underlying `DomainEventLifecycleRegister` fails, its error is
returned to the caller, yet the callback is in the registry at return —
and a later successful reconnect (after a disconnect) replays it. -/
theorem register_appends_before_underlying (dial : Except LvError Nat)
    (e : LvError) (lastErr : Option LvError) (cb : Nat)
    (l : LibvirtConnection) (h : l.alive = true) :
    (RegisterGuestEventLifecycle dial (Except.error e) lastErr
        (CallbackArg.lifecycle cb) l).2 = RegisterOutcome.ret (some e)
    ∧ (RegisterGuestEventLifecycle dial (Except.error e) lastErr
        (CallbackArg.lifecycle cb) l).1.callbacks = l.callbacks ++ [cb]
    ∧ ∀ c2, Ev.invoke cb none ∈
        (reconnectIfNecessary (Except.ok c2)
          { (RegisterGuestEventLifecycle dial (Except.error e) lastErr
              (CallbackArg.lifecycle cb) l).1 with alive := false }).trace := by
  rw [RegisterGuestEventLifecycle, reconnectIfNecessary_alive dial l h]
  refine ⟨rfl, ?_, ?_⟩
  · exact checkConnectionLost_callbacks lastErr
      { l with callbacks := l.callbacks ++ [cb] }
  · intro c2
    rw [reconnectIfNecessary_dead_ok _ _ rfl]
    have hmem : cb ∈ (checkConnectionLost lastErr
        { l with callbacks := l.callbacks ++ [cb] }).1.callbacks := by
      rw [checkConnectionLost_callbacks]
      simp
    simp only [List.mem_cons, List.mem_append, List.mem_map]
    exact Or.inr (Or.inr (Or.inr (Or.inl ⟨cb, hmem, rfl⟩)))

/-- C10 witness: the registry retention after a failed underlying
registration at a concrete alive handle, with the later replay. -/
theorem register_appends_before_underlying_witness :
    sampleAlive.alive = true
    ∧ ((RegisterGuestEventLifecycle (Except.ok 1)
          (Except.error { code := ErrCode.ERR_RPC }) none
          (CallbackArg.lifecycle 11) sampleAlive).2
        = RegisterOutcome.ret (some { code := ErrCode.ERR_RPC })
      ∧ (RegisterGuestEventLifecycle (Except.ok 1)
          (Except.error { code := ErrCode.ERR_RPC }) none
          (CallbackArg.lifecycle 11) sampleAlive).1.callbacks
        = sampleAlive.callbacks ++ [11]
      ∧ ∀ c2, Ev.invoke 11 none ∈
          (reconnectIfNecessary (Except.ok c2)
            { (RegisterGuestEventLifecycle (Except.ok 1)
                (Except.error { code := ErrCode.ERR_RPC }) none
                (CallbackArg.lifecycle 11) sampleAlive).1 with
              alive := false }).trace) :=
  ⟨rfl, register_appends_before_underlying (Except.ok 1)
    { code := ErrCode.ERR_RPC } none 11 sampleAlive rfl⟩

end Virtwrap
